import Mathlib

/-!
Verification of the per-call voice-session engine implemented in `src/server.py`
(an inbound sales-call voicebot: VAD-based utterance segmentation, keyword
intent matching, a guided step script, and fixed-size playback framing).

The embedding is shallow: each Python helper is translated to an executable
Lean function over `Nat` byte lists (PCM audio) and `String`s (transcripts).
Python string operations are modelled over `List Char`, which matches Python's
code-point view of `str`; the modelled operations are structurally recursive so
every definition evaluates inside the kernel.
-/

/-! ## Configuration constants (server.py lines 13-18) -/

def SAMPLE_RATE : Nat := 16000

def MIN_CHUNK_SIZE : Nat := 3200

def SPEECH_THRESHOLD : Nat := 520

def SILENCE_CHUNKS : Nat := 10

def MIN_SPEECH_CHUNKS : Nat := 6

/-! ## Script tables (server.py lines 30-54) -/

def PITCH : String :=
  "Hi, my name is Neeraja from Rupeek. You have a pre-approved personal loan at zero interest. The process is fully digital and money is credited in sixty seconds. Would you like me to guide you step by step, or answer your questions?"

def STEPS : List String :=
  ["First, download the Rupeek app from the Play Store.",
   "Next, complete your Aadhaar KYC.",
   "Then select your loan amount and confirm disbursal."]

/-- FAQ table of `server.py` lines 43-54, as the ordered association list the
Python dict iterates over (insertion order). -/
def FAQ_MAP : List (String × String) :=
  [("interest", "It is zero percent interest if you repay by the due date. Otherwise EMI interest applies as shown in the app."),
   ("repayment", "You must repay by the month-end due date to enjoy zero percent interest."),
   ("emi", "EMI depends on the tenure you select. The app shows the exact EMI before confirmation."),
   ("limit", "Your approved loan limit is visible inside the Rupeek app under the Click Cash banner."),
   ("processing fee", "Processing fee is shown clearly in the app before confirmation. There are no hidden charges."),
   ("documents", "No documents or income proof are required. It is a fully digital process."),
   ("cibil", "Yes, timely repayment improves your CIBIL score."),
   ("mandate", "The small amount paid during mandate setup is for bank verification and gets refunded."),
   ("risk", "There is no risk if you repay on time. Otherwise the loan converts into EMI."),
   ("did not get money", "Once you complete the steps in the app, money is credited within sixty seconds.")]

/-- Nudge line spoken after every FAQ answer (server.py line 218). -/
def NUDGE : String := "You can ask another question or say guide me."

/-- Closing-offer line spoken on a positive intent past the last step
(server.py line 229). -/
def CLOSING_OFFER : String :=
  "Great! Whenever you’re ready, just open the Rupeek app and check your pre-approved loan limit."

/-- Closing line of the negative branch (server.py line 235). -/
def CLOSING : String := "No problem. Thank you for your time."

/-! ## Python string primitives over code-point lists -/

/-- Boolean list-prefix test (`needle` starts `hay`). -/
def listPre : List Char → List Char → Bool
  | [], _ => true
  | _ :: _, [] => false
  | a :: as, b :: bs => a == b && listPre as bs

/-- Python's substring operator `needle in hay` over code-point lists. -/
def listSub (needle : List Char) : List Char → Bool
  | [] => needle.isEmpty
  | b :: bs => listPre needle (b :: bs) || listSub needle bs

/-- Python `needle in hay` on strings. -/
def strContains (hay needle : String) : Bool :=
  listSub needle.data hay.data

/-- Python `str.replace`: replace every non-overlapping occurrence of `pat`,
scanning left to right.  The first argument is fuel; one unit is spent per
step while at least one input character is consumed, so fuel equal to the
input length always suffices.  (The `server.py` patterns are all non-empty;
an empty pattern leaves the string unchanged here.) -/
def replaceF (pat rep : List Char) : Nat → List Char → List Char
  | _, [] => []
  | 0, s => s
  | fuel + 1, c :: rest =>
    if listPre pat (c :: rest) && !pat.isEmpty then
      rep ++ replaceF pat rep fuel (rest.drop (pat.length - 1))
    else
      c :: replaceF pat rep fuel rest

def pyReplace (s pat rep : String) : String :=
  String.mk (replaceF pat.data rep.data s.data.length s.data)

/-- Python `str.lower` (ASCII-faithful, which covers every table entry). -/
def pyLower (s : String) : String :=
  String.mk (s.data.map Char.toLower)

/-- Python `str.split()` with no separator: split on whitespace runs,
dropping empty fields.  `cur` holds the current field, reversed. -/
def splitWsAux : List Char → List Char → List (List Char)
  | cur, [] => if cur.isEmpty then [] else [cur.reverse]
  | cur, c :: rest =>
    if c.isWhitespace then
      if cur.isEmpty then splitWsAux [] rest
      else cur.reverse :: splitWsAux [] rest
    else splitWsAux (c :: cur) rest

def pySplit (s : String) : List String :=
  (splitWsAux [] s.data).map String.mk

/-- Python `str.strip()`: drop leading and trailing whitespace. -/
def pyStrip (s : String) : String :=
  String.mk (((s.data.dropWhile Char.isWhitespace).reverse.dropWhile Char.isWhitespace).reverse)

/-! ## Text helpers (server.py lines 57-83) -/

/-- Phonetic-correction table of `normalize_text` (server.py lines 59-66),
in dict insertion order. -/
def replacements : List (String × String) :=
  [("repair", "repayment"), ("prepare", "repayment"), ("enemy", "emi"),
   ("man date", "mandate"), ("ten year", "tenure"), ("noun", "no")]

/-- `normalize_text` (server.py lines 57-69): lowercase, then apply each
replacement in table order. -/
def normalize_text (text : String) : String :=
  replacements.foldl (fun t wr => pyReplace t wr.1 wr.2) (pyLower text)

def NEGATIVE_WORDS : List String := ["no", "nope", "not", "not interested"]

def POSITIVE_WORDS : List String := ["yes", "sure", "okay", "ok", "guide"]

/-- `is_negative` (server.py lines 71-73): some whitespace-split word of the
lowercased text is in the negative list. -/
def is_negative (text : String) : Bool :=
  (pySplit (pyLower text)).any (fun w => NEGATIVE_WORDS.contains w)

/-- `is_positive` (server.py lines 75-77). -/
def is_positive (text : String) : Bool :=
  (pySplit (pyLower text)).any (fun w => POSITIVE_WORDS.contains w)

/-- `detect_faq` (server.py lines 79-83): first key of `FAQ_MAP`, in table
order, that occurs as a substring of the text; its answer. -/
def detect_faq (text : String) : Option String :=
  (FAQ_MAP.find? (fun kv => strContains text kv.1)).map (fun kv => kv.2)

/-! ## Voice activity detection (server.py lines 97-102) -/

/-- Little-endian signed 16-bit decoding of two bytes
(`int.from_bytes(pcm[i:i+2], "little", signed=True)`). -/
def i16 (lo hi : Nat) : Int :=
  let u := lo + 256 * hi
  if u < 32768 then (u : Int) else (u : Int) - 65536

/-- Sum over `range(0, len(pcm)-1, 2)` of the absolute decoded samples;
a trailing odd byte is ignored, exactly as the Python range bound does. -/
def absSum : List Nat → Nat
  | lo :: hi :: rest => (i16 lo hi).natAbs + absSum rest
  | _ => 0

/-- `is_speech` (server.py lines 97-102).  Python compares
`energy / max(len(pcm)//2, 1) > SPEECH_THRESHOLD` in float arithmetic; for
the integer magnitudes involved (energy < 2^26) the comparison is exact and
equals the integer comparison `energy > SPEECH_THRESHOLD * denominator`. -/
def is_speech (pcm : List Nat) : Bool :=
  decide (SPEECH_THRESHOLD * max (pcm.length / 2) 1 < absSum pcm)

/-! ## Utterance segmentation (server.py lines 193-204) -/

/-- Per-frame segmentation state: the accumulated speech bytes and the two
counters of `ws_handler` (`speech`, `speech_chunks`, `silence_chunks`). -/
structure SegState where
  speech : List Nat
  speech_chunks : Nat
  silence_chunks : Nat
deriving DecidableEq

def segInit : SegState := ⟨[], 0, 0⟩

/-- One assembled frame through lines 193-204 of `ws_handler`: classify with
`is_speech`, update buffers and counters, then either `continue` (guard
`speech_chunks < MIN_SPEECH_CHUNKS and silence_chunks < SILENCE_CHUNKS`) or
hand the accumulated speech bytes to transcription and reset all three. -/
def segStep (st : SegState) (frame : List Nat) : SegState × Option (List Nat) :=
  let st' :=
    if is_speech frame then
      SegState.mk (st.speech ++ frame) (st.speech_chunks + 1) 0
    else
      SegState.mk st.speech st.speech_chunks (st.silence_chunks + 1)
  if st'.speech_chunks < MIN_SPEECH_CHUNKS ∧ st'.silence_chunks < SILENCE_CHUNKS then
    (st', none)
  else
    (segInit, some st'.speech)

/-- Decision trace of the segmenter over a frame sequence: for each frame,
`none` when the loop just continues, `some bytes` when that frame triggers
the transcription call on `bytes`. -/
def segTrace (st : SegState) : List (List Nat) → List (Option (List Nat))
  | [] => []
  | f :: fs =>
    let r := segStep st f
    r.2 :: segTrace r.1 fs

/-! ## Session state and the dialogue step (server.py lines 155-236) -/

/-- The per-connection `session` dict (server.py lines 155-160). -/
structure Session where
  started : Bool
  bot_speaking : Bool
  step : Nat
  pending_text : String
deriving DecidableEq

/-- Session value right after the start event has been handled
(`started` set, nothing pending). -/
def sessionStart : Session := ⟨true, false, 0, ""⟩

/-- Intent implicit in the branch chain of lines 214-236. -/
inductive Intent where
  | faq (ans : String)
  | positive
  | negative
  | unmatched
deriving DecidableEq

/-- The classification order of `ws_handler` lines 214-234: `detect_faq`
first, then `is_positive`, then `is_negative`, else fall through. -/
def classify (combined : String) : Intent :=
  match detect_faq combined with
  | some ans => Intent.faq ans
  | none =>
    if is_positive combined then Intent.positive
    else if is_negative combined then Intent.negative
    else Intent.unmatched

/-- Lines 210-211: the new pending text is the old one, a space, and the
normalized transcript; classification runs on its stripped form. -/
def pendingAfter (s : Session) (t : String) : String :=
  s.pending_text ++ " " ++ normalize_text t

def combinedText (s : Session) (t : String) : String :=
  pyStrip (pendingAfter s t)

/-- Lines 206-236 of `ws_handler`, from the transcription result onward:
returns the updated session, the texts spoken (in order), and whether the
loop `break`s (call ended).  An empty transcript is skipped outright
(line 206); otherwise the transcript is normalized, appended to
`pending_text`, and the stripped combination is classified.  The FAQ and
positive branches clear `pending_text`; the negative and unmatched branches
keep the appended text. -/
def handleTranscript (s : Session) (text : String) : Session × List String × Bool :=
  if text = "" then (s, [], false)
  else
    let pending := pendingAfter s text
    let combined := combinedText s text
    match classify combined with
    | Intent.faq ans => (⟨s.started, s.bot_speaking, s.step, ""⟩, [ans, NUDGE], false)
    | Intent.positive =>
      if h : s.step < STEPS.length then
        (⟨s.started, s.bot_speaking, s.step + 1, ""⟩, [STEPS.get ⟨s.step, h⟩], false)
      else
        (⟨s.started, s.bot_speaking, s.step, ""⟩, [CLOSING_OFFER], false)
    | Intent.negative => (⟨s.started, s.bot_speaking, s.step, pending⟩, [CLOSING], true)
    | Intent.unmatched => (⟨s.started, s.bot_speaking, s.step, pending⟩, [], false)

/-! ## Inbound media handling and the speaking gate (server.py lines 184-204) -/

/-- Connection-scoped mutable state of the receive loop: the session dict,
the byte buffer `buf`, and the segmentation state. -/
structure ConnState where
  session : Session
  buf : List Nat
  seg : SegState
deriving DecidableEq

/-- One `media` event through lines 184-204: when `session["bot_speaking"]`
is set the event is skipped entirely (line 184); otherwise the payload is
appended to `buf`, and once a full `MIN_CHUNK_SIZE` frame is available it is
cut off and run through the segmenter.  The second component is the bytes
handed to transcription, when that happens. -/
def handleMedia (c : ConnState) (payload : List Nat) : ConnState × Option (List Nat) :=
  if c.session.bot_speaking then (c, none)
  else
    let buf := c.buf ++ payload
    if buf.length < MIN_CHUNK_SIZE then (⟨c.session, buf, c.seg⟩, none)
    else
      let frame := buf.take MIN_CHUNK_SIZE
      let rest := buf.drop MIN_CHUNK_SIZE
      let r := segStep c.seg frame
      (⟨c.session, rest, r.1⟩, r.2)

/-! ## Playback framing (server.py lines 138-144) -/

/-- The frames sent by `speak`: Python's `range(0, len(pcm), MIN_CHUNK_SIZE)`
visits `i = MIN_CHUNK_SIZE * k` for `k < ceil(len(pcm)/MIN_CHUNK_SIZE)`, and
each iteration sends the slice `pcm[i : i+MIN_CHUNK_SIZE]`. -/
def speakFrames (pcm : List Nat) : List (List Nat) :=
  (List.range ((pcm.length + (MIN_CHUNK_SIZE - 1)) / MIN_CHUNK_SIZE)).map
    (fun k => (pcm.drop (MIN_CHUNK_SIZE * k)).take MIN_CHUNK_SIZE)

/-! ## Fallible synthesis (server.py lines 117-147, 214-236) -/

/-- A transcript step with synthesis modelled as fallible.  `tts`
(server.py lines 117-131) has no exception handling — unlike `stt_safe` — so
a synthesis failure raises out of `speak` and out of the `while` loop of
`ws_handler`, whose `try` only catches `WebSocketDisconnect`; the session is
over.  That propagation is the `Except.error` case here: every spoken line
consults the oracle `ttsR`, and a failure aborts the whole step. -/
def handleTranscriptE (ttsR : String → Except Unit (List Nat)) (s : Session)
    (text : String) : Except Unit (Session × List String × Bool) :=
  if text = "" then Except.ok (s, [], false)
  else
    let pending := pendingAfter s text
    let combined := combinedText s text
    match classify combined with
    | Intent.faq ans =>
      match ttsR ans with
      | Except.error e => Except.error e
      | Except.ok _ =>
        match ttsR NUDGE with
        | Except.error e => Except.error e
        | Except.ok _ => Except.ok (⟨s.started, s.bot_speaking, s.step, ""⟩, [ans, NUDGE], false)
    | Intent.positive =>
      if h : s.step < STEPS.length then
        match ttsR (STEPS.get ⟨s.step, h⟩) with
        | Except.error e => Except.error e
        | Except.ok _ =>
          Except.ok (⟨s.started, s.bot_speaking, s.step + 1, ""⟩, [STEPS.get ⟨s.step, h⟩], false)
      else
        match ttsR CLOSING_OFFER with
        | Except.error e => Except.error e
        | Except.ok _ => Except.ok (⟨s.started, s.bot_speaking, s.step, ""⟩, [CLOSING_OFFER], false)
    | Intent.negative =>
      match ttsR CLOSING with
      | Except.error e => Except.error e
      | Except.ok _ => Except.ok (⟨s.started, s.bot_speaking, s.step, pending⟩, [CLOSING], true)
    | Intent.unmatched => Except.ok (⟨s.started, s.bot_speaking, s.step, pending⟩, [], false)

/-- A synthesis collaborator that always fails. -/
def ttsFail : String → Except Unit (List Nat) := fun _ => Except.error ()

/-! ## Concrete frames used in the segmenter traces -/

/-- A frame classified as speech: one sample of value 32512, well above the
threshold. -/
def speechFrame : List Nat := [0, 127]

/-- A frame classified as silence: one zero sample. -/
def silenceFrame : List Nat := [0, 0]


/-! ## Theorems -/

/-- Claim C1.  The claim states that the segmenter emits exactly one
utterance, and only once BOTH `consecutiveSpeechFrames ≥ MIN_SPEECH_CHUNKS`
and `consecutiveSilenceFrames ≥ SILENCE_CHUNKS` hold.  The code's guard
`if speech_chunks < MIN_SPEECH_CHUNKS and silence_chunks < SILENCE_CHUNKS:
continue` fires the boundary as soon as EITHER counter reaches its
threshold: on six speech frames followed by ten silence frames, the
transcription call happens already at the sixth speech frame (no silence has
been seen at all), and a second, empty utterance is handed over at the tenth
silence frame.  This trace exhibits both divergences. -/
theorem c1_segmenter_emits_on_either_threshold :
    segTrace segInit (List.replicate 6 speechFrame ++ List.replicate 10 silenceFrame) =
      List.replicate 5 none ++ [some (List.replicate 6 speechFrame).flatten]
        ++ List.replicate 9 none ++ [some []] := by decide

/-- Claim C2.  The claim states that on silence-only input the segmenter
never hands an utterance to transcription.  In the code, ten consecutive
silence frames make the guard fail (`silence_chunks < SILENCE_CHUNKS` is
violated) and `stt_safe` is called on the empty speech buffer: an utterance
with zero accumulated speech bytes IS handed to transcription every
`SILENCE_CHUNKS` frames. -/
theorem c2_silence_only_reaches_transcription :
    segTrace segInit (List.replicate 10 silenceFrame) =
      List.replicate 9 none ++ [some []] := by decide

/-- Claim C4.  The claim states that the transcript "not interested", spoken
from a LISTENING state, yields the closing line and ends the session.  In
the code `detect_faq` runs before `is_negative`, and the FAQ key "interest"
is a substring of "not interested", so the bot answers the interest FAQ and
the call stays live — even though `is_negative` classifies the text as
negative intent. -/
theorem c4_not_interested_hits_interest_faq :
    is_negative (normalize_text ("not interested")) = true ∧
    handleTranscript sessionStart ("not interested") =
      (⟨true, false, 0, ""⟩,
       ["It is zero percent interest if you repay by the due date. Otherwise EMI interest applies as shown in the app.",
        NUDGE],
       false) := by decide

/-- Claim C8, counterexample.  The claim states that two consecutive
empty-transcript utterances produce exactly two re-prompt lines and bump a
`retryCount`.  The code (`if not text: continue`) speaks nothing at all and
leaves the session dict — which has no retry counter — untouched: both
handlings yield an empty spoken-line list. -/
theorem c8_counterexample :
    handleTranscript sessionStart ("") = (sessionStart, [], false) ∧
    handleTranscript (handleTranscript sessionStart ("")).1 ("") =
      (sessionStart, [], false) := by decide

/-- Claim C8, amended.  An empty transcript (which is also what `stt_safe`
returns on any transcription failure) is skipped silently: no line is
spoken, the session is returned unchanged (there is no retry counter in the
state), and the call continues. -/
theorem c8_empty_transcript_is_silently_skipped (s : Session) :
    handleTranscript s ("") = (s, [], false) := by
  simp [handleTranscript]

/-- Claim C7.  A media event handled while the speaking gate
(`session["bot_speaking"]`) is set is discarded before touching any
segmentation state: the byte buffer, the speech accumulator and both
counters are exactly those of the incoming state, and nothing is handed to
transcription.  This is the guard on line 184 of `ws_handler`, the property
the spec asks to test by injecting frames during a synthetic speaking
window. -/
theorem c7_gate_blocks_segmenter (c : ConnState) (payload : List Nat)
    (h : c.session.bot_speaking = true) :
    handleMedia c payload = (c, none) := by
  simp [handleMedia, h]

/-- Claim C7, witness: a concrete frame injected while the gate is closed
leaves the connection state untouched. -/
theorem c7_witness :
    handleMedia ⟨⟨true, true, 0, ""⟩, [], segInit⟩ [1, 2, 3] =
      (⟨⟨true, true, 0, ""⟩, [], segInit⟩, none) :=
  c7_gate_blocks_segmenter _ _ rfl

/-- Helper: `List.find?` returns the entry at the first index whose
predicate holds. -/
theorem find_eq_getD {α : Type} (p : α → Bool) (d : α) :
    ∀ (l : List α) (i : Nat), i < l.length →
      p (l.getD i d) = true →
      (∀ j, j < i → p (l.getD j d) = false) →
      l.find? p = some (l.getD i d)
  | [], i, hi, _, _ => absurd hi (by simp)
  | a :: t, 0, _, hp, _ => by
    simp only [List.getD_cons_zero] at hp ⊢
    simp [List.find?, hp]
  | a :: t, i + 1, hi, hp, hprev => by
    have h0 : p a = false := by simpa using hprev 0 (Nat.succ_pos i)
    have ih := find_eq_getD p d t i (by simpa using hi)
      (by simpa using hp)
      (fun j hj => by simpa using hprev (j + 1) (Nat.succ_lt_succ hj))
    simp only [List.getD_cons_succ]
    simp [List.find?, h0, ih]

/-- Claim C3: intent classification is deterministic and priority-ordered.
For any text that contains some FAQ keyword as a substring and also contains
a positive keyword, the classification is an FAQ answer and never
`Positive` (the FAQ scan of line 214 runs before the `is_positive` check of
line 221); and whenever the keyword at index `i` of the table matches while
no earlier keyword does, the returned answer is exactly that key's answer
(first match in table order wins). -/
theorem c3_faq_wins_and_first_match (t : String) :
    ((∃ kv, kv ∈ FAQ_MAP ∧ strContains t kv.1 = true) → is_positive t = true →
      (∃ a, classify t = Intent.faq a) ∧ classify t ≠ Intent.positive) ∧
    (∀ i, i < FAQ_MAP.length →
      strContains t (FAQ_MAP.getD i ("", "")).1 = true →
      (∀ j, j < i → strContains t (FAQ_MAP.getD j ("", "")).1 = false) →
      classify t = Intent.faq (FAQ_MAP.getD i ("", "")).2) := by
  constructor
  · rintro ⟨kv, hmem, hsub⟩ _
    cases hf : FAQ_MAP.find? (fun kv => strContains t kv.1) with
    | none =>
      have := List.find?_eq_none.mp hf kv hmem
      simp [hsub] at this
    | some kv' =>
      constructor
      · exact ⟨kv'.2, by simp [classify, detect_faq, hf]⟩
      · simp [classify, detect_faq, hf]
  · intro i hi hmatch hprev
    have hf := find_eq_getD (fun kv => strContains t kv.1) ("", "") FAQ_MAP i hi hmatch hprev
    simp [classify, detect_faq, hf]

/-- Claim C3, witness: "risk yes" contains the FAQ key "risk" (table index
8) and the positive keyword "yes"; classification yields the risk answer,
not `Positive`. -/
theorem c3_witness :
    classify ("risk yes") =
      Intent.faq ("There is no risk if you repay on time. Otherwise the loan converts into EMI.") ∧
    classify ("risk yes") ≠ Intent.positive := by
  have h := c3_faq_wins_and_first_match ("risk yes")
  constructor
  · exact h.2 8 (by decide) (by decide) (by decide)
  · exact (h.1 ⟨("risk", "There is no risk if you repay on time. Otherwise the loan converts into EMI."),
      by decide, by decide⟩ (by decide)).2

/-- Claim C5: `step` (the 0-based guided-step cursor) never decreases, stays
clamped at `STEPS.length`, and at `step = STEPS.length - 1` a positive
intent speaks exactly the last script step and moves the cursor to
`STEPS.length`, after which every further positive intent speaks the
closing-offer line with the cursor unchanged — the script is only ever
indexed under the `step < len(STEPS)` guard. -/
theorem c5_step_index_clamped (s : Session) (text : String) :
    s.step ≤ (handleTranscript s text).1.step ∧
    (s.step ≤ STEPS.length → (handleTranscript s text).1.step ≤ STEPS.length) ∧
    (s.step = STEPS.length - 1 → text ≠ "" → classify (combinedText s text) = Intent.positive →
      handleTranscript s text =
        (⟨s.started, s.bot_speaking, STEPS.length, ""⟩,
         [STEPS.get ⟨STEPS.length - 1, by decide⟩], false)) ∧
    (STEPS.length ≤ s.step → text ≠ "" → classify (combinedText s text) = Intent.positive →
      handleTranscript s text =
        (⟨s.started, s.bot_speaking, s.step, ""⟩, [CLOSING_OFFER], false)) := by
  obtain ⟨st, bs, stp, pt⟩ := s
  dsimp only
  by_cases ht : text = ""
  · subst ht
    simp [handleTranscript]
  · cases hc : classify (combinedText ⟨st, bs, stp, pt⟩ text) with
    | faq a => refine ⟨?_, fun h => ?_, fun _ _ hp => ?_, fun _ _ hp => ?_⟩ <;>
        simp_all [handleTranscript, ht, hc]
    | positive =>
      have hlen : STEPS.length = 3 := rfl
      by_cases h : stp < STEPS.length
      · have hstep : (handleTranscript ⟨st, bs, stp, pt⟩ text).1.step = stp + 1 := by
          simp [handleTranscript, ht, hc, h]
        refine ⟨?_, fun hle => ?_, fun hstp _ _ => ?_, fun hge _ _ => ?_⟩
        · omega
        · omega
        · subst hstp
          simp [handleTranscript, ht, hc, h]
          decide
        · exact absurd hge (by omega)
      · have hstep : (handleTranscript ⟨st, bs, stp, pt⟩ text).1.step = stp := by
          simp [handleTranscript, ht, hc, h]
        refine ⟨?_, fun hle => ?_, fun hstp _ _ => ?_, fun hge _ _ => ?_⟩
        · omega
        · omega
        · exact absurd hstp (by omega)
        · simp [handleTranscript, ht, hc, h]
    | negative => refine ⟨?_, fun h => ?_, fun _ _ hp => ?_, fun _ _ hp => ?_⟩ <;>
        simp_all [handleTranscript, ht, hc]
    | unmatched => refine ⟨?_, fun h => ?_, fun _ _ hp => ?_, fun _ _ hp => ?_⟩ <;>
        simp_all [handleTranscript, ht, hc]

/-- Claim C5, witness: from `step = 2` (the last 0-based index of the
three-step script) a positive "yes" speaks exactly the final step and sets
the cursor to 3; from `step = 3` a further "yes" speaks the closing-offer
line and the cursor stays 3. -/
theorem c5_witness :
    handleTranscript ⟨true, false, 2, ""⟩ ("yes") =
      (⟨true, false, 3, ""⟩, ["Then select your loan amount and confirm disbursal."], false) ∧
    handleTranscript ⟨true, false, 3, ""⟩ ("yes") =
      (⟨true, false, 3, ""⟩, [CLOSING_OFFER], false) :=
  ⟨(c5_step_index_clamped ⟨true, false, 2, ""⟩ ("yes")).2.2.1 (by decide) (by decide) (by decide),
   (c5_step_index_clamped ⟨true, false, 3, ""⟩ ("yes")).2.2.2 (by decide) (by decide) (by decide)⟩

/-- Claim C10: a non-empty transcript is normalized, appended (with a space)
to `pending_text`, and classification always runs on the stripped
concatenation `combinedText`.  When nothing matches, the appended buffer is
retained with no line spoken; an FAQ or positive match clears the buffer; a
negative match ends the call with the buffer still holding the appended
text. -/
theorem c10_pending_accumulation (s : Session) (text : String) (ht : text ≠ "") :
    (classify (combinedText s text) = Intent.unmatched →
      handleTranscript s text =
        (⟨s.started, s.bot_speaking, s.step, pendingAfter s text⟩, [], false)) ∧
    (∀ a, classify (combinedText s text) = Intent.faq a →
      (handleTranscript s text).1.pending_text = "") ∧
    (classify (combinedText s text) = Intent.positive →
      (handleTranscript s text).1.pending_text = "") ∧
    (classify (combinedText s text) = Intent.negative →
      handleTranscript s text =
        (⟨s.started, s.bot_speaking, s.step, pendingAfter s text⟩, [CLOSING], true)) := by
  refine ⟨fun hc => ?_, fun a hc => ?_, fun hc => ?_, fun hc => ?_⟩
  · simp [handleTranscript, ht, hc]
  · simp [handleTranscript, ht, hc]
  · by_cases h : s.step < STEPS.length <;> simp [handleTranscript, ht, hc, h]
  · simp [handleTranscript, ht, hc]

/-- Claim C10, witness: an unmatched transcript is retained in
`pending_text`; FAQ and positive matches clear it; a negative match ends the
call with the buffer kept. -/
theorem c10_witness :
    handleTranscript ⟨true, false, 0, "hello"⟩ ("world") =
      (⟨true, false, 0, "hello world"⟩, [], false) ∧
    (handleTranscript ⟨true, false, 0, ""⟩ ("interest")).1.pending_text = "" ∧
    (handleTranscript ⟨true, false, 0, ""⟩ ("yes")).1.pending_text = "" ∧
    handleTranscript ⟨true, false, 5, "x"⟩ ("nope") =
      (⟨true, false, 5, "x nope"⟩, [CLOSING], true) := by
  refine ⟨?_, ?_, ?_, ?_⟩
  · exact (c10_pending_accumulation ⟨true, false, 0, "hello"⟩ ("world") (by decide)).1 (by decide)
  · exact (c10_pending_accumulation ⟨true, false, 0, ""⟩ ("interest") (by decide)).2.1
      ("It is zero percent interest if you repay by the due date. Otherwise EMI interest applies as shown in the app.")
      (by decide)
  · exact (c10_pending_accumulation ⟨true, false, 0, ""⟩ ("yes") (by decide)).2.2.1 (by decide)
  · exact (c10_pending_accumulation ⟨true, false, 5, "x"⟩ ("nope") (by decide)).2.2.2 (by decide)

/-- Helper: the first `k` playback frames flatten to the first
`MIN_CHUNK_SIZE * k` bytes of the synthesized buffer. -/
theorem speakChunksFlatten (l : List Nat) :
    ∀ k, ((List.range k).map (fun i => (l.drop (MIN_CHUNK_SIZE * i)).take MIN_CHUNK_SIZE)).flatten
      = l.take (MIN_CHUNK_SIZE * k)
  | 0 => by simp
  | k + 1 => by
    rw [List.range_succ, List.map_append, List.flatten_append, speakChunksFlatten l k]
    simp only [List.map_cons, List.map_nil, List.flatten_cons, List.flatten_nil, List.append_nil]
    rw [Nat.mul_succ, List.take_add]

/-- Helper: dropping the last element of `range k` leaves `range (k - 1)`. -/
theorem range_dropLast (k : Nat) : (List.range k).dropLast = List.range (k - 1) := by
  cases k with
  | zero => simp
  | succ k => rw [List.range_succ]; simp [List.dropLast_concat]

/-- Claim C6: `speak` emits exactly `ceil(len(pcm)/MIN_CHUNK_SIZE)` frames,
their in-order concatenation is the synthesized buffer byte for byte (every
byte exactly once, no gaps, no reordering), every frame before the last has
exactly `MIN_CHUNK_SIZE` bytes, and every frame is non-empty and at most
`MIN_CHUNK_SIZE` bytes (so only the last can be short). -/
theorem c6_playback_frames (pcm : List Nat) :
    (speakFrames pcm).length = (pcm.length + (MIN_CHUNK_SIZE - 1)) / MIN_CHUNK_SIZE ∧
    (speakFrames pcm).flatten = pcm ∧
    ((speakFrames pcm).dropLast).all (fun f => f.length == MIN_CHUNK_SIZE) = true ∧
    (speakFrames pcm).all (fun f => decide (f.length ≤ MIN_CHUNK_SIZE) && decide (0 < f.length)) = true := by
  have hM : MIN_CHUNK_SIZE = 3200 := rfl
  refine ⟨by simp [speakFrames], ?_, ?_, ?_⟩
  · rw [speakFrames, speakChunksFlatten]
    apply List.take_of_length_le
    simp only [hM]
    omega
  · rw [List.all_eq_true]
    intro f hf
    simp only [speakFrames, ← List.map_dropLast, range_dropLast] at hf
    obtain ⟨i, hik, rfl⟩ := List.mem_map.mp hf
    have hi := List.mem_range.mp hik
    simp only [beq_iff_eq, List.length_take, List.length_drop]
    simp only [hM] at hi ⊢
    omega
  · rw [List.all_eq_true]
    intro f hf
    simp only [speakFrames] at hf
    obtain ⟨i, hik, rfl⟩ := List.mem_map.mp hf
    have hi := List.mem_range.mp hik
    simp only [Bool.and_eq_true, decide_eq_true_eq, List.length_take, List.length_drop]
    simp only [hM] at hi ⊢
    omega

/-- Claim C9, counterexample.  The claim states that the session survives a
synthesis failure with the affected line skipped.  With a failing synthesis
collaborator, handling the negative transcript "nope" — which has to speak
the closing line — yields the propagated error instead of a surviving
session: in `server.py`, `tts` raises, `speak` does not catch, and the
`try` of `ws_handler` only catches `WebSocketDisconnect`. -/
theorem c9_counterexample :
    handleTranscriptE ttsFail sessionStart ("nope") = Except.error () := rfl

/-- Claim C9, amended.  Unlike `stt_safe`, `tts` has no error handling, so
whenever the handling of a transcript speaks at least one line (any
classification other than unmatched on a non-empty transcript), a synthesis
failure propagates out of the per-session handler: the step yields an
error, the line is not skipped, and the call does not continue. -/
theorem c9_tts_failure_propagates (s : Session) (text : String)
    (ht : text ≠ "") (hc : classify (combinedText s text) ≠ Intent.unmatched) :
    handleTranscriptE ttsFail s text = Except.error () := by
  cases hcl : classify (combinedText s text) with
  | faq a => simp [handleTranscriptE, ht, hcl, ttsFail]
  | positive =>
    by_cases h : s.step < STEPS.length <;> simp [handleTranscriptE, ht, hcl, ttsFail, h]
  | negative => simp [handleTranscriptE, ht, hcl, ttsFail]
  | unmatched => exact absurd hcl hc

/-- Claim C9, witness: with a failing synthesis collaborator, the positive
transcript "sure" (which has to speak a guided step) crashes the step
instead of skipping the line. -/
theorem c9_witness :
    handleTranscriptE ttsFail ⟨true, false, 1, ""⟩ ("sure") = Except.error () :=
  c9_tts_failure_propagates ⟨true, false, 1, ""⟩ ("sure") (by decide) (by decide)
